import Mathlib

/-!
Verification of the recommendation engine in `app/main.py`.

The engine loads a precomputed artifact (item records with a `title`
column plus a square similarity matrix) at module import time, inside a
`try/except Exception` block that, on any failure, installs sentinel
values (`new_df = pd.DataFrame()`, `similarity = None`).  Query
operations are `recommend` (exact-title top-5 nearest neighbours),
`search_movies` (case-insensitive substring search), and `health_check`.

Modelling choices:
* similarity scores (Python floats) are modelled as rationals `ℚ`; the
  engine only compares scores, so any linearly ordered field is a
  faithful carrier (NaN scores are outside the model);
* the item records are modelled by their `title` column, the only column
  the engine reads; row order is list order, matching the contiguous
  `RangeIndex` invariant of the artifact;
* `pandas.Series.str.contains(query, case=False, na=False)` is modelled
  as case-insensitive substring containment.  (It is regex matching in
  pandas; on queries without regex metacharacters — all queries
  considered here, including the empty and whitespace-only ones — regex
  search coincides with substring containment.)
* Python's `sorted(list(enumerate(distance)), reverse=True,
  key=lambda x: x[1])` is a stable sort by score descending.  On the
  enumerated row the first components are strictly increasing, so the
  stable result is exactly the unique permutation sorted by the linear
  order "score descending, then index ascending" (`keyLT` below); we
  compute it with the structurally recursive `List.insertionSort`.
-/

namespace MovieRec

/-- A successfully deserialized artifact: the `title` column of
`data['dataframe']` in row order, and `data['similarity_matrix']` as a
row-major list of rows.  (`data['vectorizer']` is opaque and never read
at query time, so it is omitted.) -/
structure Snapshot where
  titles : List String
  sim : List (List ℚ)
deriving DecidableEq, Repr

/-- Outcome of the module-level load: either the artifact is in memory or
the `except` branch ran. -/
inductive LoadResult where
  | ready (snap : Snapshot)
  | failed
deriving DecidableEq, Repr

/-- The ways the body of the module-level `try` can go: `gzip.open`
raises `FileNotFoundError` on a missing file, `joblib.load` raises on
undecodable bytes, the `data[...]` subscripts raise `KeyError` on a
missing field, or everything succeeds. -/
inductive ArtifactFile where
  | missing
  | undecodable
  | badSchema
  | good (snap : Snapshot)
deriving DecidableEq, Repr

/-- The `try` body of lines 34-40: each failure mode surfaces as a raised
exception (modelled as `Except.error` carrying the exception name). -/
def readArtifact : ArtifactFile → Except String Snapshot
  | .missing => .error "FileNotFoundError"
  | .undecodable => .error "UnpicklingError"
  | .badSchema => .error "KeyError"
  | .good snap => .ok snap

/-- Lines 34-46: the `try/except Exception` block.  A raised exception is
caught and turned into the failed outcome; it never escapes. -/
def loadSnapshot (f : ArtifactFile) : LoadResult :=
  match readArtifact f with
  | .ok snap => .ready snap
  | .error _ => .failed

/-- The module-level globals after the load: `new_df['title']` and
`similarity`.  On failure the `except` branch leaves the sentinels
`pd.DataFrame()` (no rows, so an empty title list) and `None`. -/
structure EngineState where
  titles : List String
  sim : Option (List (List ℚ))
deriving DecidableEq, Repr

/-- Lines 37-39 (success) and 44-46 (the sentinel assignments of the
`except` branch). -/
def stateOf : LoadResult → EngineState
  | .ready snap => { titles := snap.titles, sim := some snap.sim }
  | .failed => { titles := [], sim := none }

/-- The artifact invariants of the snapshot (§3 of the design): the
matrix is square with dimension equal to the record count. -/
def WF (snap : Snapshot) : Prop :=
  snap.sim.length = snap.titles.length ∧
    ∀ row ∈ snap.sim, row.length = snap.titles.length

instance (snap : Snapshot) : Decidable (WF snap) := by
  unfold WF
  infer_instance

/-! ### Search (`/search`, lines 148-171) -/

/-- ASCII-insensitive normalisation used to model `case=False`. -/
def lowerChars (s : String) : List Char :=
  s.toList.map Char.toLower

/-- `needle` is a prefix of `hay`. -/
def listStartsWith : List Char → List Char → Bool
  | [], _ => true
  | _ :: _, [] => false
  | a :: as, b :: bs => (a == b) && listStartsWith as bs

/-- `needle` occurs contiguously inside `hay`. -/
def containsSub (hay needle : List Char) : Bool :=
  listStartsWith needle hay ||
    match hay with
    | [] => false
    | _ :: t => containsSub t needle

/-- One row of `new_df['title'].str.contains(query, case=False, na=False)`. -/
def titleMatches (query title : String) : Bool :=
  containsSub (lowerChars title) (lowerChars query)

/-- Line 159: filter the titles by the case-insensitive match and truncate
with `[:limit]`. -/
def searchTitles (st : EngineState) (query : String) (limit : Nat) : List String :=
  (st.titles.filter (fun t => titleMatches query t)).take limit

/-- The JSON bodies `search_movies` can return: the "Movie database not
loaded" error and the success payload. -/
inductive SearchResponse where
  | unavailable
  | ok (query : String) (movies : List String) (count : Nat)
deriving DecidableEq, Repr

/-- Lines 148-166: `search_movies`.  (The surrounding `try/except` is
dead in the model: the body below is total.) -/
def search_movies (st : EngineState) (query : String) (limit : Nat) : SearchResponse :=
  if st.titles.isEmpty then
    .unavailable
  else
    let ms := searchTitles st query limit
    .ok query ms ms.length

/-! ### Recommendation (`recommend`, lines 61-69, and `/recommend`,
lines 72-106) -/

/-- The order in which Python's stable `sorted(..., reverse=True,
key=lambda x: x[1])` leaves the enumerated row: score descending, ties
by ascending original row index.  On pairs with distinct first
components this is a linear order. -/
def keyLT (a b : Nat × ℚ) : Prop :=
  b.2 < a.2 ∨ (a.2 = b.2 ∧ a.1 ≤ b.1)

instance : DecidableRel keyLT := fun a b => by
  unfold keyLT
  infer_instance

/-- Line 65: `new_df[new_df['title'] == movie].index[0]`, the first row
position whose title equals `movie` exactly (case-sensitively). -/
def resolveIdx (titles : List String) (movie : String) : Nat :=
  titles.findIdx (fun t => t == movie)

/-- Line 66: `distance = similarity[movie_index]`.  The `none` and
out-of-range fallbacks are unreachable on the states the theorems use
(a failed load leaves the title list empty, so `recommend` returns
before this point). -/
def rowOf (st : EngineState) (i : Nat) : List ℚ :=
  match st.sim with
  | some m => m.getD i []
  | none => []

/-- Line 67: `sorted(list(enumerate(distance)), reverse=True,
key=lambda x: x[1])[1:6]` — sort the enumerated row, drop the first
(top-ranked) entry, keep the next five. -/
def rankRow (distance : List ℚ) : List (Nat × ℚ) :=
  ((List.insertionSort keyLT distance.enum).drop 1).take 5

/-- Lines 61-69: `recommend`. -/
def recommend (st : EngineState) (movie : String) : List String :=
  if movie ∉ st.titles then
    []
  else
    (rankRow (rowOf st (resolveIdx st.titles movie))).map
      (fun p => st.titles.getD p.1 "")

/-- The JSON bodies `get_recommendation` can return: the "Model not
loaded properly" error, the "Movie ... not found in database." error,
and the success payload. -/
inductive RecResponse where
  | unavailable
  | notFound (movie : String)
  | ok (movies : List String) (input : String)
deriving DecidableEq, Repr

/-- Lines 72-106: the `/recommend` endpoint.  The readiness test is the
literal `if new_df.empty or similarity is None`; an empty `recommend`
result is reported as "not found". -/
def get_recommendation (st : EngineState) (movie : String) : RecResponse :=
  if st.titles.isEmpty || st.sim.isNone then
    .unavailable
  else
    let movies := recommend st movie
    if movies.isEmpty then
      .notFound movie
    else
      .ok movies movie

/-! ### Health (`/health`, lines 113-122) -/

/-- The varying fields of the `/health` JSON body. -/
structure HealthResponse where
  model_status : String
  movies_count : Nat
deriving DecidableEq, Repr

/-- Lines 113-122: `model_status = "loaded" if (not new_df.empty and
similarity is not None) else "not loaded"` and `movies_count =
len(new_df) if not new_df.empty else 0`. -/
def health_check (st : EngineState) : HealthResponse :=
  { model_status := if !st.titles.isEmpty && st.sim.isSome then "loaded" else "not loaded",
    movies_count := if st.titles.isEmpty then 0 else st.titles.length }

/-! ### Derived notions and concrete snapshots used by the theorems -/

/-- The strict version of `keyLT`: score strictly descending, or equal
scores with strictly ascending original row index.  This is the ranking
order the design asks for. -/
def keySLT (a b : Nat × ℚ) : Prop :=
  b.2 < a.2 ∨ (a.2 = b.2 ∧ a.1 < b.1)

/-- The similarity row `recommend` ranks for a given query on a loaded
snapshot. -/
def queryRow (snap : Snapshot) (movie : String) : List ℚ :=
  rowOf (stateOf (.ready snap)) (resolveIdx snap.titles movie)

/-- Two items whose similarity matrix has non-maximal diagonal entries
(row of "A" is `[1, 2]`: "A" is scored more similar to "B" than to
itself). -/
def snapDiag : Snapshot := ⟨["A", "B"], [[1, 2], [2, 1]]⟩

/-- Three items with a well-behaved matrix: each diagonal entry is the
strict maximum of its row. -/
def snapW : Snapshot := ⟨["A", "B", "C"], [[2, 1, 1], [1, 2, 1], [1, 1, 2]]⟩

/-- The tie example of the design: items `["A","B","C"]`, row of "A" is
`[1.0, 0.5, 0.5]`. -/
def snapTie : Snapshot :=
  ⟨["A", "B", "C"],
   [[1, mkRat 1 2, mkRat 1 2], [mkRat 1 2, 1, mkRat 1 2], [mkRat 1 2, mkRat 1 2, 1]]⟩

/-- A snapshot whose only record is named "Dark Knight". -/
def snapDK : Snapshot := ⟨["Dark Knight"], [[1]]⟩

/-- Two records, so that an exact-cased query can actually succeed. -/
def snapDK2 : Snapshot := ⟨["Dark Knight", "Batman Begins"], [[2, 1], [1, 2]]⟩

/-- A single-record snapshot. -/
def snapX : Snapshot := ⟨["X"], [[1]]⟩

/-- A successfully deserializable artifact with zero records. -/
def snapEmpty : Snapshot := ⟨[], []⟩

/-- Eight records with duplicate name "X" at row positions 3 and 7. -/
def dupTitles : List String := ["T0", "T1", "T2", "X", "T4", "T5", "T6", "X"]

instance : IsTotal (Nat × ℚ) keyLT := by
  constructor
  intro a b
  rcases lt_trichotomy a.2 b.2 with h | h | h
  · exact Or.inr (Or.inl h)
  · rcases Nat.le_total a.1 b.1 with h1 | h1
    · exact Or.inl (Or.inr ⟨h, h1⟩)
    · exact Or.inr (Or.inr ⟨h.symm, h1⟩)
  · exact Or.inl (Or.inl h)

instance : IsTrans (Nat × ℚ) keyLT := by
  constructor
  intro a b c hab hbc
  rcases hab with h1 | ⟨e1, l1⟩ <;> rcases hbc with h2 | ⟨e2, l2⟩
  · exact Or.inl (h2.trans h1)
  · exact Or.inl (by rw [← e2]; exact h1)
  · exact Or.inl (by rw [e1]; exact h2)
  · exact Or.inr ⟨e1.trans e2, l1.trans l2⟩

/-! ### Helper lemmas about the ranking pipeline -/

theorem nodup_enum (d : List ℚ) : d.enum.Nodup :=
  List.Nodup.of_map Prod.fst (by rw [List.enum_map_fst]; exact List.nodup_range _)

theorem nodup_sorted (d : List ℚ) : (List.insertionSort keyLT d.enum).Nodup :=
  (List.perm_insertionSort keyLT d.enum).symm.nodup (nodup_enum d)

theorem rankRow_sublist_sorted (d : List ℚ) :
    (rankRow d).Sublist (List.insertionSort keyLT d.enum) :=
  (List.take_sublist 5 _).trans (List.drop_sublist 1 _)

theorem mem_rankRow_mem_enum {d : List ℚ} {p : Nat × ℚ} (hp : p ∈ rankRow d) :
    p ∈ d.enum :=
  (List.perm_insertionSort keyLT d.enum).mem_iff.mp
    (List.Sublist.mem hp (rankRow_sublist_sorted d))

theorem rankRow_pairwise (d : List ℚ) : List.Pairwise keySLT (rankRow d) := by
  have hsorted : List.Pairwise keyLT (List.insertionSort keyLT d.enum) :=
    List.sorted_insertionSort keyLT d.enum
  have hk : List.Pairwise keyLT (rankRow d) :=
    List.Pairwise.sublist (rankRow_sublist_sorted d) hsorted
  have hnd : List.Pairwise (fun a b => a ≠ b) (rankRow d) :=
    List.Nodup.sublist (rankRow_sublist_sorted d) (nodup_sorted d)
  refine (hk.and hnd).imp ?_
  rintro a b ⟨hab, hne⟩
  rcases hab with h | ⟨he, hle⟩
  · exact Or.inl h
  · refine Or.inr ⟨he, lt_of_le_of_ne hle ?_⟩
    intro hfst
    exact hne (Prod.ext_iff.mpr ⟨hfst, he⟩)

theorem self_not_mem_rankRow (d : List ℚ) (i : Nat) (hi : i < d.length)
    (hlo : ∀ j, j < i → d.getD j 0 < d.getD i 0)
    (hhi : ∀ j, j < d.length → i < j → d.getD j 0 ≤ d.getD i 0) :
    ∀ p ∈ rankRow d, p.1 ≠ i := by
  rintro ⟨j, y⟩ hp rfl
  -- the element is the self pair of the enumerated row
  obtain ⟨hj, hy⟩ := List.mem_enum (mem_rankRow_mem_enum hp)
  -- the sorted row is nonempty, so it has a head and a tail
  have hlen : (List.insertionSort keyLT d.enum).length = d.length := by
    rw [List.length_insertionSort, List.enum_length]
  have hne : List.insertionSort keyLT d.enum ≠ [] := by
    intro h0
    rw [h0] at hlen
    simp only [List.length_nil] at hlen
    omega
  obtain ⟨hd, tl, hs⟩ := List.exists_cons_of_ne_nil hne
  -- the self pair sits in the tail
  have hmem_tl : (j, y) ∈ tl := by
    have h1 : (j, y) ∈ (List.insertionSort keyLT d.enum).drop 1 :=
      List.Sublist.mem hp (List.take_sublist 5 _)
    rw [hs, List.drop_succ_cons, List.drop_zero] at h1
    exact h1
  -- the head is some other entry of the enumerated row
  have hhd_mem : hd ∈ d.enum := by
    refine (List.perm_insertionSort keyLT d.enum).mem_iff.mp ?_
    rw [hs]
    exact List.mem_cons_self hd tl
  obtain ⟨k, z⟩ := hd
  obtain ⟨hk, hz⟩ := List.mem_enum hhd_mem
  -- by nodup the head differs from the self pair, hence k ≠ j
  have hnodup := nodup_sorted d
  rw [hs] at hnodup
  have hhd_ne : (k, z) ≠ (j, y) := by
    intro h
    rw [h] at hnodup
    exact (List.nodup_cons.mp hnodup).1 hmem_tl
  have hkj : k ≠ j := by
    intro h
    apply hhd_ne
    have hdk : d[k]? = d[j]? := by rw [h]
    rw [List.getElem?_eq_getElem hk, List.getElem?_eq_getElem hj] at hdk
    rw [Prod.ext_iff]
    refine ⟨h, ?_⟩
    rw [hz, hy]
    exact Option.some.inj hdk
  -- sortedness relates the head to the self pair
  have hsorted : List.Pairwise keyLT (List.insertionSort keyLT d.enum) :=
    List.sorted_insertionSort keyLT d.enum
  rw [hs] at hsorted
  have hrel : keyLT (k, z) (j, y) :=
    (List.pairwise_cons.mp hsorted).1 _ hmem_tl
  -- but the self entry dominates every other entry, contradiction
  have hgetj : d.getD j 0 = d[j] := List.getD_eq_getElem d 0 hj
  have hgetk : d.getD k 0 = d[k] := List.getD_eq_getElem d 0 hk
  rcases hrel with h | ⟨he, hle⟩
  · -- y < z, i.e. d[j] < d[k]
    rw [hy, hz] at h
    rcases Nat.lt_or_ge k j with hlt | hge
    · have hd1 := hlo k hlt
      rw [hgetj, hgetk] at hd1
      exact absurd h (lt_asymm hd1)
    · have hgt : j < k := lt_of_le_of_ne hge (Ne.symm hkj)
      have hd2 := hhi k hk hgt
      rw [hgetj, hgetk] at hd2
      exact absurd h (not_lt_of_ge hd2)
  · -- z = y and k ≤ j, so k < j and d[k] = d[j]
    have hklt : k < j := lt_of_le_of_ne hle hkj
    have hd1 := hlo k hklt
    rw [hgetj, hgetk] at hd1
    have hzy : d[k] = d[j] := by
      rw [← hz, ← hy]
      exact he
    rw [hzy] at hd1
    exact lt_irrefl _ hd1

theorem resolveIdx_lt_length {titles : List String} {movie : String}
    (hmem : movie ∈ titles) : resolveIdx titles movie < titles.length :=
  List.findIdx_lt_length_of_exists ⟨movie, hmem, beq_self_eq_true movie⟩

theorem getElem?_resolveIdx {titles : List String} {movie : String}
    (hmem : movie ∈ titles) :
    titles[resolveIdx titles movie]? = some movie := by
  have h : resolveIdx titles movie < titles.length := resolveIdx_lt_length hmem
  rw [List.getElem?_eq_getElem h]
  have hbeq : (titles[resolveIdx titles movie] == movie) = true :=
    @List.findIdx_getElem _ _ _ h
  rw [beq_iff_eq.mp hbeq]

theorem queryRow_length {snap : Snapshot} {movie : String} (hwf : WF snap)
    (hmem : movie ∈ snap.titles) :
    (queryRow snap movie).length = snap.titles.length := by
  have hi : resolveIdx snap.titles movie < snap.sim.length := by
    rw [hwf.1]
    exact resolveIdx_lt_length hmem
  have h1 : queryRow snap movie = snap.sim.getD (resolveIdx snap.titles movie) [] := rfl
  rw [h1, List.getD_eq_getElem snap.sim [] hi]
  exact hwf.2 _ (List.getElem_mem hi)

theorem rankRow_length (d : List ℚ) : (rankRow d).length = min 5 (d.length - 1) := by
  rw [rankRow, List.length_take, List.length_drop, List.length_insertionSort,
    List.enum_length]

theorem recommend_eq_of_mem {snap : Snapshot} {movie : String}
    (hmem : movie ∈ snap.titles) :
    recommend (stateOf (.ready snap)) movie =
      (rankRow (queryRow snap movie)).map (fun p => snap.titles.getD p.1 "") := by
  rw [recommend,
    if_neg (show ¬movie ∉ (stateOf (LoadResult.ready snap)).titles from not_not_intro hmem)]
  rfl

/-! ### Claim theorems -/

/-- C1, counterexample: the claim says the entry for the query's own row
index is removed before ranking for every similarity matrix, so the
query's own name never appears.  On the loaded snapshot `snapDiag`
(diagonal entries not maximal in their rows) the resolving query "A"
returns a list containing "A" itself: the code drops the top-ranked
entry after sorting, not the self entry. -/
theorem C1_counterexample :
    loadSnapshot (.good snapDiag) = .ready snapDiag ∧
    "A" ∈ snapDiag.titles ∧
    "A" ∈ recommend (stateOf (.ready snapDiag)) "A" := by
  decide

/-- C1, amended: for a well-formed loaded snapshot with pairwise-distinct
names and a resolving query, the query's own name is absent from
`recommend`'s result provided its row's self entry is strictly greater
than every earlier entry and at least as large as every later entry (in
particular whenever the diagonal entry is the strict row maximum). -/
theorem C1_self_excluded_when_diagonal_max (snap : Snapshot) (movie : String)
    (hwf : WF snap) (hnd : snap.titles.Nodup) (hmem : movie ∈ snap.titles)
    (hlo : ∀ j, j < resolveIdx snap.titles movie →
      (queryRow snap movie).getD j 0 <
        (queryRow snap movie).getD (resolveIdx snap.titles movie) 0)
    (hhi : ∀ j, j < (queryRow snap movie).length → resolveIdx snap.titles movie < j →
      (queryRow snap movie).getD j 0 ≤
        (queryRow snap movie).getD (resolveIdx snap.titles movie) 0) :
    movie ∉ recommend (stateOf (.ready snap)) movie := by
  intro hcontra
  rw [recommend_eq_of_mem hmem] at hcontra
  obtain ⟨p, hp, hpeq⟩ := List.mem_map.mp hcontra
  have hi : resolveIdx snap.titles movie < snap.titles.length := resolveIdx_lt_length hmem
  have hrowlen : (queryRow snap movie).length = snap.titles.length := queryRow_length hwf hmem
  -- the selected pair has a row index different from the query's own
  have hjne : p.1 ≠ resolveIdx snap.titles movie :=
    self_not_mem_rankRow (queryRow snap movie) (resolveIdx snap.titles movie)
      (by rw [hrowlen]; exact hi) hlo hhi p hp
  -- but its name is the query name, contradicting distinctness of names
  obtain ⟨hjlt0, -⟩ := List.mem_enum (show (p.1, p.2) ∈ (queryRow snap movie).enum from
    mem_rankRow_mem_enum hp)
  have hjt : p.1 < snap.titles.length := by
    rw [← hrowlen]
    exact hjlt0
  have htj : snap.titles[p.1] = movie := by
    rw [← List.getD_eq_getElem snap.titles "" hjt]
    exact hpeq
  have hti : snap.titles[resolveIdx snap.titles movie] = movie := by
    have h1 := getElem?_resolveIdx hmem
    rw [List.getElem?_eq_getElem hi] at h1
    exact Option.some.inj h1
  exact hjne ((List.Nodup.getElem_inj_iff hnd).mp (htj.trans hti.symm))

/-- C1, witness for the amended theorem at a concrete snapshot whose
diagonal entries are strict row maxima. -/
theorem C1_witness : "A" ∉ recommend (stateOf (.ready snapW)) "A" :=
  C1_self_excluded_when_diagonal_max snapW "A" (by decide) (by decide) (by decide)
    (by decide) (by decide)

/-- C2, counterexample: the claim says an empty query returns an empty
sequence.  On the loaded two-record snapshot the empty query matches the
whole catalog and the endpoint returns its first `limit` names. -/
theorem C2_counterexample :
    search_movies (stateOf (.ready snapDiag)) "" 10 = .ok "" ["A", "B"] 2 ∧
    searchTitles (stateOf (.ready snapDiag)) "" 10 ≠ [] := by
  decide

/-- C2, amended: the empty query is matched like any other substring, and
the empty substring occurs in every name, so search with an empty query
returns the first `limit` names of the whole catalog; no input
validation happens before scanning. -/
theorem C2_empty_query_matches_all (st : EngineState) (limit : Nat) :
    searchTitles st "" limit = st.titles.take limit := by
  have hmatch : ∀ t : String, titleMatches "" t = true := by
    intro t
    rw [titleMatches]
    cases h : lowerChars t with
    | nil => rfl
    | cons a l => rfl
  rw [searchTitles,
    show (fun t => titleMatches "" t) = (fun _ : String => true) from funext hmatch,
    List.filter_true]

/-- C3: the ranked candidate pairs are ordered by similarity score
descending, ties broken by strictly ascending original row index; on the
tie example (row of "A" is `[1, 1/2, 1/2]`) the result is
`["B", "C"]`. -/
theorem C3_ranking_order :
    (∀ distance : List ℚ, List.Pairwise keySLT (rankRow distance)) ∧
    recommend (stateOf (.ready snapTie)) "A" = ["B", "C"] :=
  ⟨rankRow_pairwise, by decide⟩

/-- C4: whenever the query name resolves on a well-formed loaded snapshot
of N records, `recommend` returns exactly `min 5 (N - 1)` names. -/
theorem C4_result_length (snap : Snapshot) (movie : String)
    (hwf : WF snap) (hmem : movie ∈ snap.titles) :
    (recommend (stateOf (.ready snap)) movie).length =
      min 5 (snap.titles.length - 1) := by
  rw [recommend_eq_of_mem hmem, List.length_map, rankRow_length,
    queryRow_length hwf hmem]

/-- C4, witness at a three-record snapshot: the result has
`min 5 2 = 2` names. -/
theorem C4_witness :
    (recommend (stateOf (.ready snapW)) "A").length = min 5 (snapW.titles.length - 1) :=
  C4_result_length snapW "A" (by decide) (by decide)

/-- C5, counterexample: the claim says health reports ready iff the load
produced Ready, even for a zero-record artifact.  Loading the
zero-record artifact succeeds (outcome Ready) yet health reports the
model as not loaded, because readiness is inferred from non-emptiness of
the dataframe. -/
theorem C5_counterexample :
    loadSnapshot (.good snapEmpty) = .ready snapEmpty ∧
    (health_check (stateOf (loadSnapshot (.good snapEmpty)))).model_status ≠ "loaded" := by
  decide

/-- C5, amended: health reports the model as loaded iff the load produced
Ready with a non-empty record set, and reports a count of 0 whenever it
is not loaded. -/
theorem C5_health_iff_nonempty_ready (r : LoadResult) :
    ((health_check (stateOf r)).model_status = "loaded" ↔
      ∃ snap, r = .ready snap ∧ snap.titles ≠ []) ∧
    ((health_check (stateOf r)).model_status ≠ "loaded" →
      (health_check (stateOf r)).movies_count = 0) := by
  cases r with
  | failed =>
    refine ⟨⟨fun h => absurd h (by decide), ?_⟩, fun h => rfl⟩
    rintro ⟨snap, heq, -⟩
    exact LoadResult.noConfusion heq
  | ready snap =>
    obtain ⟨titles, sim⟩ := snap
    cases titles with
    | nil =>
      refine ⟨⟨fun h => absurd h (by simp [health_check, stateOf]), ?_⟩, fun h => rfl⟩
      rintro ⟨snap2, heq, hne⟩
      injection heq with h2
      rw [← h2] at hne
      exact absurd rfl hne
    | cons t ts =>
      exact ⟨⟨fun h => ⟨⟨t :: ts, sim⟩, rfl, List.cons_ne_nil t ts⟩, fun h => rfl⟩,
        fun h => absurd rfl h⟩

/-- C5, witness: applying the amended theorem to a failed load gives a
zero item count. -/
theorem C5_witness : (health_check (stateOf LoadResult.failed)).movies_count = 0 :=
  (C5_health_iff_nonempty_ready LoadResult.failed).2 (by decide)

/-- C6: when the artifact load failed, the recommend endpoint returns the
"model not loaded" outcome for every input name, without any lookup (the
response is a constant, independent of the name), and that outcome is
distinct from the not-found outcome. -/
theorem C6_unavailable_on_failed_load :
    (∀ movie : String,
      get_recommendation (stateOf LoadResult.failed) movie = .unavailable) ∧
    ∀ movie : String, RecResponse.unavailable ≠ RecResponse.notFound movie := by
  refine ⟨fun movie => rfl, fun movie h => RecResponse.noConfusion h⟩

/-- C6, witness: a concrete name queried against the failed-load state. -/
theorem C6_witness :
    get_recommendation (stateOf LoadResult.failed) "Inception" = RecResponse.unavailable :=
  C6_unavailable_on_failed_load.1 "Inception"

/-- C7: exact name resolution returns the first row position whose title
equals the query, so every earlier position holds a different title; on
an eight-record catalog with duplicates named "X" at rows 3 and 7,
resolution yields 3. -/
theorem C7_first_occurrence_resolution :
    (∀ (titles : List String) (movie : String), movie ∈ titles →
      resolveIdx titles movie < titles.length ∧
      titles[resolveIdx titles movie]? = some movie ∧
      ∀ j, j < resolveIdx titles movie → titles[j]? ≠ some movie) ∧
    resolveIdx dupTitles "X" = 3 := by
  constructor
  · intro titles movie hmem
    have h := resolveIdx_lt_length hmem
    refine ⟨h, getElem?_resolveIdx hmem, ?_⟩
    intro j hj hsome
    have hjlt : j < titles.length := hj.trans h
    rw [List.getElem?_eq_getElem hjlt] at hsome
    have hfalse := ((List.findIdx_eq h).mp rfl).2 j hj
    have htrue : (titles[j] == movie) = true := beq_iff_eq.mpr (Option.some.inj hsome)
    exact Bool.noConfusion (htrue.symm.trans hfalse)
  · decide

/-- C7, witness at a concrete two-record catalog. -/
theorem C7_witness :
    resolveIdx ["A", "X"] "X" < (["A", "X"] : List String).length ∧
    (["A", "X"] : List String)[resolveIdx ["A", "X"] "X"]? = some "X" ∧
    ∀ j, j < resolveIdx ["A", "X"] "X" → (["A", "X"] : List String)[j]? ≠ some "X" :=
  C7_first_occurrence_resolution.1 ["A", "X"] "X" (by decide)

/-- C8: the load operation ends in one of the two named outcomes for
every input; in particular the missing-file, undecodable-content and
schema-mismatch paths all end in the failed outcome (caught by the
module-level except clause) and a good artifact ends in Ready. -/
theorem C8_load_total_outcomes :
    (∀ f : ArtifactFile, (∃ snap, loadSnapshot f = .ready snap) ∨ loadSnapshot f = .failed) ∧
    loadSnapshot .missing = .failed ∧
    loadSnapshot .undecodable = .failed ∧
    loadSnapshot .badSchema = .failed ∧
    ∀ snap : Snapshot, loadSnapshot (.good snap) = .ready snap := by
  refine ⟨?_, rfl, rfl, rfl, fun snap => rfl⟩
  intro f
  cases f with
  | missing => exact Or.inr rfl
  | undecodable => exact Or.inr rfl
  | badSchema => exact Or.inr rfl
  | good snap => exact Or.inl ⟨snap, rfl⟩

/-- C9: search results are invariant under any change of query that
preserves its lowercased characters (case-insensitive matching), while
recommendation lookup is exact and case-sensitive: on a snapshot whose
only record is "Dark Knight" the query "dark knight" is reported not
found, and on a two-record snapshot the two casings produce different
responses. -/
theorem C9_case_sensitivity :
    (∀ (st : EngineState) (q1 q2 : String) (limit : Nat),
      lowerChars q1 = lowerChars q2 →
      searchTitles st q1 limit = searchTitles st q2 limit) ∧
    get_recommendation (stateOf (.ready snapDK)) "dark knight" = .notFound "dark knight" ∧
    get_recommendation (stateOf (.ready snapDK2)) "dark knight" ≠
      get_recommendation (stateOf (.ready snapDK2)) "Dark Knight" := by
  refine ⟨?_, by decide, by decide⟩
  intro st q1 q2 limit h
  rw [searchTitles, searchTitles,
    show (fun t => titleMatches q1 t) = (fun t => titleMatches q2 t) from
      funext fun t => by rw [titleMatches, titleMatches, h]]

/-- C9, witness: the two casings of "dark" give identical search results. -/
theorem C9_witness :
    searchTitles (stateOf (.ready snapDK)) "dark" 10 =
      searchTitles (stateOf (.ready snapDK)) "DARK" 10 :=
  C9_case_sensitivity.1 (stateOf (.ready snapDK)) "dark" "DARK" 10 (by decide)

/-- C10: `recommend` signals an unresolved name by returning the empty
list, the same value it returns for a resolved name in a one-record
snapshot; hence the endpoint reports the latter case as "not found". -/
theorem C10_notfound_conflation :
    (∀ (st : EngineState) (movie : String), movie ∉ st.titles → recommend st movie = []) ∧
    recommend (stateOf (.ready snapX)) "X" = [] ∧
    get_recommendation (stateOf (.ready snapX)) "X" = .notFound "X" := by
  refine ⟨?_, by decide, by decide⟩
  intro st movie h
  rw [recommend, if_pos h]

/-- C10, witness: an unresolved name on a loaded snapshot yields the
empty list. -/
theorem C10_witness : recommend (stateOf (.ready snapX)) "Y" = [] :=
  C10_notfound_conflation.1 (stateOf (.ready snapX)) "Y" (by decide)

end MovieRec
